import Mathlib

/-!
Verification of the pantry-to-recipe matching service (`src/main.py`).

The embedding models:
- Python `str.lower()` / `str.strip()` as `pyLower` / `pyStrip` over the
  character list of a Lean `String` (ASCII-faithful);
- the recipe catalog and `simple_recipe_engine` (src/main.py lines 34-132);
- the `/api/recipes` handler `get_recipes` (lines 135-169), with the
  HTTP 400 rejections as `Except.error (400, detail)`, the raw (pre-typed)
  ingredient payload as a list of JSON values, and the best-effort search
  logging abstracted over an arbitrary `create_document` collaborator.

Python's `list.sort` is a stable sort by the key tuple
`(len(missing_ingredients), cooking_time_minutes)`; it is modelled by the
stable `List.insertionSort` under the corresponding lexicographic relation.
-/

/-- Model of Python `str.lower()` (ASCII): lower-case every character. -/
def pyLower (s : String) : String := ⟨s.data.map Char.toLower⟩

/-- Model of Python `str.strip()`: drop whitespace from both ends. -/
def pyStrip (s : String) : String :=
  ⟨((s.data.dropWhile Char.isWhitespace).reverse.dropWhile Char.isWhitespace).reverse⟩

/-- A catalog record, src/main.py lines 41-113. -/
structure CatalogEntry where
  title : String
  ingredients : List String
  steps : List String
  time : Nat
  difficulty : String
  healthy : Bool
deriving DecidableEq

/-- The `Recipe` response model, src/main.py lines 24-31. -/
structure Recipe where
  title : String
  ingredients : List String
  missing_ingredients : List String
  steps : List String
  cooking_time_minutes : Nat
  difficulty : String
  is_healthy : Bool
deriving DecidableEq

def veggieOmelette : CatalogEntry :=
  { title := "Veggie Omelette"
    ingredients := ["eggs", "onion", "tomato", "spinach", "olive oil", "salt", "pepper"]
    steps := ["Whisk eggs with salt and pepper",
              "Saute onion, tomato, spinach in olive oil",
              "Pour eggs and cook until set"]
    time := 10
    difficulty := "easy"
    healthy := true }

def garlicButterPasta : CatalogEntry :=
  { title := "Garlic Butter Pasta"
    ingredients := ["pasta", "garlic", "butter", "olive oil", "salt", "pepper", "parsley"]
    steps := ["Boil pasta until al dente",
              "Saute garlic in butter and olive oil",
              "Toss pasta with sauce and parsley"]
    time := 15
    difficulty := "easy"
    healthy := false }

def chickpeaSalad : CatalogEntry :=
  { title := "Chickpea Salad"
    ingredients := ["chickpeas", "cucumber", "tomato", "onion", "lemon", "olive oil", "salt",
                    "pepper"]
    steps := ["Chop vegetables",
              "Mix with chickpeas, lemon juice and olive oil",
              "Season and serve"]
    time := 8
    difficulty := "easy"
    healthy := true }

def onePanChickenRice : CatalogEntry :=
  { title := "One-Pan Chicken & Rice"
    ingredients := ["chicken", "rice", "onion", "garlic", "paprika", "salt", "pepper",
                    "olive oil"]
    steps := ["Brown chicken",
              "Saute aromatics",
              "Add rice and water, simmer until cooked"]
    time := 35
    difficulty := "medium"
    healthy := true }

def peanutStirFry : CatalogEntry :=
  { title := "Peanut Stir-Fry"
    ingredients := ["noodles", "soy sauce", "garlic", "ginger", "peanut butter",
                    "mixed vegetables", "oil"]
    steps := ["Stir-fry vegetables with garlic and ginger",
              "Add cooked noodles, soy sauce and peanut butter",
              "Toss to coat"]
    time := 15
    difficulty := "medium"
    healthy := false }

def bakedOats : CatalogEntry :=
  { title := "Baked Oats"
    ingredients := ["oats", "banana", "milk", "honey", "baking powder", "cinnamon"]
    steps := ["Blend ingredients",
              "Bake until set"]
    time := 20
    difficulty := "easy"
    healthy := true }

/-- The fixed catalog, src/main.py lines 41-113, in declaration order. -/
def catalog : List CatalogEntry :=
  [veggieOmelette, garlicButterPasta, chickpeaSalad, onePanChickenRice, peanutStirFry,
   bakedOats]

/-- Src/main.py line 39: `{i.strip().lower() for i in pantry if i.strip()}`.
The Python set is used only through membership, so it is modelled as the
list of normalized entries. -/
def pantry_set (pantry : List String) : List String :=
  (pantry.filter (fun i => pyStrip i != "")).map (fun i => pyLower (pyStrip i))

/-- Src/main.py line 118: `[x for x in ing if x.lower() not in pantry_set]`. -/
def missingOf (pantry : List String) (item : CatalogEntry) : List String :=
  item.ingredients.filter (fun x => !((pantry_set pantry).contains (pyLower x)))

/-- Src/main.py lines 121-129: the `Recipe` built from a catalog item. -/
def mkResult (pantry : List String) (item : CatalogEntry) : Recipe :=
  { title := item.title
    ingredients := item.ingredients
    missing_ingredients := missingOf pantry item
    steps := item.steps
    cooking_time_minutes := item.time
    difficulty := item.difficulty
    is_healthy := item.healthy }

/-- Src/main.py lines 116-129: one loop iteration; the entry contributes a
result iff `len(missing) <= len(ing) // 2`. -/
def engineStep (pantry : List String) (item : CatalogEntry) : Option Recipe :=
  if (missingOf pantry item).length ≤ item.ingredients.length / 2 then
    some (mkResult pantry item)
  else none

/-- Src/main.py line 131 sort key, as the lexicographic order on the pair
`(len(missing_ingredients), cooking_time_minutes)`. -/
def keyLe (a b : Recipe) : Prop :=
  a.missing_ingredients.length < b.missing_ingredients.length ∨
    (a.missing_ingredients.length = b.missing_ingredients.length ∧
      a.cooking_time_minutes ≤ b.cooking_time_minutes)

instance : DecidableRel keyLe := fun a b =>
  inferInstanceAs (Decidable (a.missing_ingredients.length < b.missing_ingredients.length ∨
    (a.missing_ingredients.length = b.missing_ingredients.length ∧
      a.cooking_time_minutes ≤ b.cooking_time_minutes)))

instance : IsTotal Recipe keyLe := ⟨by intro a b; unfold keyLe; omega⟩

instance : IsTrans Recipe keyLe := ⟨by intro a b c; unfold keyLe; omega⟩

/-- Src/main.py lines 34-132: `simple_recipe_engine`.  Python's `list.sort`
is a stable sort by the key; `List.insertionSort` is its stable model. -/
def simple_recipe_engine (pantry : List String) : List Recipe :=
  List.insertionSort keyLe (catalog.filterMap (engineStep pantry))

/-- The position of a result's originating catalog entry, by its title
(titles in the catalog are pairwise distinct). -/
def catIdx (r : Recipe) : Nat := catalog.findIdx (fun e => e.title == r.title)

/-- The catalog position keyed by an entry's own title. -/
def tIdx (e : CatalogEntry) : Nat := catalog.findIdx (fun e2 => e2.title == e.title)

/-- Src/main.py line 147: `allowed = {"easy", "medium", "hard"}`. -/
def validDifficulties : List String := ["easy", "medium", "hard"]

/-- Src/main.py lines 146-153: difficulty validation/filter then the
healthy-only filter.  `if difficulty:` is Python truthiness: `none` and
`some ""` both skip the difficulty branch. -/
def filter_stage (results : List Recipe) (difficulty : Option String)
    (healthy_only : Bool) : Except (Nat × String) (List Recipe) := do
  let afterDiff ←
    match difficulty with
    | some d =>
      if d != "" then
        if d ∈ validDifficulties then
          pure (results.filter (fun r => r.difficulty == d))
        else
          throw ((400 : Nat), "difficulty must be easy|medium|hard")
      else pure results
    | none => pure results
  if healthy_only then
    pure (afterDiff.filter (fun r => r.is_healthy))
  else
    pure afterDiff

/-- Src/main.py lines 136-153: the `/api/recipes` handler on an
already-typed payload (the logging step, lines 155-167, is modelled
separately in `get_recipes_logged`). -/
def get_recipes (pantry : List String) (healthy_only : Bool)
    (difficulty : Option String) : Except (Nat × String) (List Recipe) :=
  filter_stage (simple_recipe_engine pantry) difficulty healthy_only

/-- A JSON scalar, for the raw `ingredients` array before type validation. -/
inductive Jv where
  | str (s : String)
  | num (n : Int)
  | boolean (b : Bool)
  | null
deriving DecidableEq

def Jv.isStr : Jv → Bool
  | .str _ => true
  | _ => false

def Jv.asString : Jv → Option String
  | .str s => some s
  | _ => none

/-- Src/main.py lines 141-142: the handler's own shape check
`any(not isinstance(i, str) for i in pantry)` over the raw payload,
rejecting with 400 before any matching. -/
def get_recipes_raw (ingredients : List Jv) (healthy_only : Bool)
    (difficulty : Option String) : Except (Nat × String) (List Recipe) :=
  if ingredients.any (fun j => !j.isStr) then
    Except.error ((400 : Nat), "ingredients must be a list of strings")
  else
    get_recipes (ingredients.filterMap Jv.asString) healthy_only difficulty

/-- The `SearchLog` record built at src/main.py lines 158-164. -/
structure SearchLog where
  ingredients : List String
  healthy_only : Bool
  difficulty : Option String
  results_count : Nat
  client : Option String

/-- The `SearchLog` document of src/main.py lines 158-164: normalized
ingredients, the query flags, the result count and the client header. -/
def mkSearchLog (pantry : List String) (healthy_only : Bool)
    (difficulty : Option String) (userAgent : Option String) (n : Nat) : SearchLog :=
  { ingredients := (pantry.filter (fun i => pyStrip i != "")).map
      (fun i => pyLower (pyStrip i))
    healthy_only := healthy_only
    difficulty := difficulty
    results_count := n
    client := userAgent }

/-- Src/main.py lines 136-169 including the best-effort logging block
(lines 155-167): the `create_document` collaborator is an arbitrary
function that may fail; its outcome is discarded (`except Exception:
pass`).  The second component counts logging attempts. -/
def get_recipes_logged (pantry : List String) (healthy_only : Bool)
    (difficulty : Option String) (userAgent : Option String)
    (create_document : String → SearchLog → Except String Unit) :
    Except (Nat × String) (List Recipe) × Nat :=
  match get_recipes pantry healthy_only difficulty with
  | Except.error e => (Except.error e, 0)
  | Except.ok all_results =>
    match create_document "searchlog"
        (mkSearchLog pantry healthy_only difficulty userAgent all_results.length) with
    | Except.ok _ => (Except.ok all_results, 1)
    | Except.error _ => (Except.ok all_results, 1)

/-- The full pantry of the Veggie Omelette, used as a concrete input. -/
def p0 : List String := ["eggs", "onion", "tomato", "spinach", "olive oil", "salt", "pepper"]

/-- C8: For the empty pantry [], the matcher returns the empty list: every
entry of the fixed catalog has at least 6 ingredients, all of which are
missing, so each exceeds the half-coverage bound and is excluded. -/
theorem C8_empty_pantry :
    simple_recipe_engine [] = [] ∧ ∀ e ∈ catalog, 6 ≤ e.ingredients.length := by
  decide

/-- C10: a present-but-empty difficulty "" is falsy in `if difficulty:`, so
it is treated exactly like an absent difficulty: no rejection, no
difficulty filtering; the request succeeds with the results filtered only
by the healthy flag. -/
theorem C10_empty_difficulty (pantry : List String) (healthy_only : Bool) :
    get_recipes pantry healthy_only (some "") = get_recipes pantry healthy_only none ∧
    get_recipes pantry healthy_only (some "") =
      Except.ok (if healthy_only then
          (simple_recipe_engine pantry).filter (fun r => r.is_healthy)
        else simple_recipe_engine pantry) := by
  cases healthy_only <;> exact ⟨rfl, rfl⟩

/-- C6 counterexample: the empty string is a present difficulty value
outside {easy, medium, hard}, yet the request is not rejected: it returns
200 with the empty result list (the claim as stated fails at
difficulty = ""). -/
theorem C6_invalid_difficulty_ce :
    ¬ ("" ∈ validDifficulties) ∧
    get_recipes [] false (some "") = Except.ok [] := by
  constructor
  · decide
  · rfl

/-- C6 amended: for every request whose difficulty is present, non-empty,
and not one of easy, medium, hard, the boundary rejects with a 400
client-error response carrying a human-readable reason, and no partial
results are returned. -/
theorem C6_invalid_difficulty_amended (pantry : List String) (healthy_only : Bool)
    (d : String) (hne : d ≠ "") (hnv : d ∉ validDifficulties) :
    get_recipes pantry healthy_only (some d) =
      Except.error (400, "difficulty must be easy|medium|hard") := by
  simp only [get_recipes, filter_stage]
  rw [if_pos (bne_iff_ne.mpr hne), if_neg hnv]
  rfl

/-- C6 witness: the invalid difficulty "extreme" is rejected with 400. -/
theorem C6_invalid_difficulty_amended_witness :
    get_recipes ["eggs"] false (some "extreme") =
      Except.error (400, "difficulty must be easy|medium|hard") :=
  C6_invalid_difficulty_amended ["eggs"] false "extreme" (by decide) (by decide)

/-- C4: for every ranked result sequence, optional difficulty among
easy/medium/hard (or absent), and healthy_only flag, the filter stage
returns exactly the order-preserving subsequence of results satisfying
(difficulty absent OR equal difficulty) AND (healthy_only false OR
is_healthy). -/
theorem C4_filter_stage_subsequence (results : List Recipe) (d : Option String)
    (healthy_only : Bool)
    (hd : d = none ∨ d = some "easy" ∨ d = some "medium" ∨ d = some "hard") :
    filter_stage results d healthy_only =
      Except.ok (results.filter (fun r =>
        (match d with
         | none => true
         | some s => r.difficulty == s) && (!healthy_only || r.is_healthy))) := by
  have hfil : ∀ (p : List Recipe) (s : String),
      (p.filter (fun r => r.difficulty == s)).filter (fun r => r.is_healthy) =
        p.filter (fun r => (r.difficulty == s) && r.is_healthy) := by
    intro p s
    rw [List.filter_filter]
    apply List.filter_congr
    intro r _
    exact Bool.and_comm _ _
  rcases hd with rfl | rfl | rfl | rfl <;>
    cases healthy_only <;>
    simp [filter_stage, validDifficulties, hfil] <;>
    rfl

/-- C4 witness: a concrete run of the filter stage at difficulty "easy"
and healthy_only true. -/
theorem C4_filter_stage_subsequence_witness :
    filter_stage (simple_recipe_engine p0) (some "easy") true =
      Except.ok ((simple_recipe_engine p0).filter (fun r =>
        (match some "easy" with
         | none => true
         | some s => r.difficulty == s) && (!true || r.is_healthy))) :=
  C4_filter_stage_subsequence (simple_recipe_engine p0) (some "easy") true
    (by simp)

/-- When the handler errors, no logging attempt is made and the error is
returned unchanged, for every collaborator. -/
theorem get_recipes_logged_error (pantry : List String) (healthy_only : Bool)
    (difficulty : Option String) (userAgent : Option String)
    (f : String → SearchLog → Except String Unit) (e : Nat × String)
    (h : get_recipes pantry healthy_only difficulty = Except.error e) :
    get_recipes_logged pantry healthy_only difficulty userAgent f = (Except.error e, 0) := by
  unfold get_recipes_logged
  simp only [h]

/-- When the handler succeeds, exactly one logging attempt is made and the
results are returned unchanged, for every collaborator. -/
theorem get_recipes_logged_ok (pantry : List String) (healthy_only : Bool)
    (difficulty : Option String) (userAgent : Option String)
    (f : String → SearchLog → Except String Unit) (v : List Recipe)
    (h : get_recipes pantry healthy_only difficulty = Except.ok v) :
    get_recipes_logged pantry healthy_only difficulty userAgent f = (Except.ok v, 1) := by
  unfold get_recipes_logged
  simp only [h]
  cases f "searchlog" (mkSearchLog pantry healthy_only difficulty userAgent v.length) <;> rfl

/-- C5: the HTTP response is fully determined before the logging step: it
equals the logging-free handler's response, is identical for any two
logging collaborators (in particular whether the write succeeds or raises),
and at most one logging attempt is made (no retry). -/
theorem C5_logging_isolated (pantry : List String) (healthy_only : Bool)
    (difficulty : Option String) (userAgent : Option String)
    (f g : String → SearchLog → Except String Unit) :
    (get_recipes_logged pantry healthy_only difficulty userAgent f).1 =
      get_recipes pantry healthy_only difficulty ∧
    get_recipes_logged pantry healthy_only difficulty userAgent f =
      get_recipes_logged pantry healthy_only difficulty userAgent g ∧
    (get_recipes_logged pantry healthy_only difficulty userAgent f).2 ≤ 1 := by
  cases hr : get_recipes pantry healthy_only difficulty with
  | error e =>
    rw [get_recipes_logged_error pantry healthy_only difficulty userAgent f e hr,
        get_recipes_logged_error pantry healthy_only difficulty userAgent g e hr]
    exact ⟨rfl, rfl, Nat.zero_le 1⟩
  | ok v =>
    rw [get_recipes_logged_ok pantry healthy_only difficulty userAgent f v hr,
        get_recipes_logged_ok pantry healthy_only difficulty userAgent g v hr]
    exact ⟨rfl, rfl, Nat.le_refl 1⟩

/-- C7: a request whose raw ingredients array contains a non-string
element is rejected by the handler's shape check (src/main.py line 141)
with a 400 response and a detail message; no results are returned. -/
theorem C7_nonstring_ingredients (ingredients : List Jv) (healthy_only : Bool)
    (difficulty : Option String) (h : ∃ j ∈ ingredients, j.isStr = false) :
    get_recipes_raw ingredients healthy_only difficulty =
      Except.error (400, "ingredients must be a list of strings") := by
  unfold get_recipes_raw
  rw [if_pos]
  rw [List.any_eq_true]
  obtain ⟨j, hj, hjs⟩ := h
  exact ⟨j, hj, by simp [hjs]⟩

/-- C7 witness: the payload `[42]` is rejected with 400. -/
theorem C7_nonstring_ingredients_witness :
    get_recipes_raw [Jv.num 42] false none =
      Except.error (400, "ingredients must be a list of strings") :=
  C7_nonstring_ingredients [Jv.num 42] false none ⟨Jv.num 42, by decide⟩

/-- Every member of the engine's output comes from a catalog entry whose
`engineStep` fired. -/
theorem mem_engine_iff (pantry : List String) (r : Recipe) :
    r ∈ simple_recipe_engine pantry ↔
      ∃ e ∈ catalog, engineStep pantry e = some r := by
  unfold simple_recipe_engine
  rw [List.mem_insertionSort, List.mem_filterMap]

/-- C1: every result returned by the matcher has missing_ingredients equal
to exactly those entries of its catalog entry's ingredient list whose
lower-cased form is not in the set of lower-cased, trimmed, non-empty
pantry strings, preserving the catalog's original casing and order. -/
theorem C1_missing_exact (pantry : List String) (r : Recipe)
    (h : r ∈ simple_recipe_engine pantry) :
    ∃ e ∈ catalog, r.title = e.title ∧ r.ingredients = e.ingredients ∧
      r.missing_ingredients =
        e.ingredients.filter (fun x => !((pantry_set pantry).contains (pyLower x))) := by
  obtain ⟨e, he, hstep⟩ := (mem_engine_iff pantry r).mp h
  refine ⟨e, he, ?_⟩
  unfold engineStep at hstep
  by_cases hc : (missingOf pantry e).length ≤ e.ingredients.length / 2
  · rw [if_pos hc] at hstep
    cases hstep
    exact ⟨rfl, rfl, rfl⟩
  · rw [if_neg hc] at hstep
    cases hstep

/-- C1 witness: with the Veggie Omelette's full pantry, the omelette's
result is in the output and the theorem applies to it. -/
theorem C1_missing_exact_witness :
    ∃ e ∈ catalog, (mkResult p0 veggieOmelette).title = e.title ∧
      (mkResult p0 veggieOmelette).ingredients = e.ingredients ∧
      (mkResult p0 veggieOmelette).missing_ingredients =
        e.ingredients.filter (fun x => !((pantry_set p0).contains (pyLower x))) :=
  C1_missing_exact p0 (mkResult p0 veggieOmelette) (by decide)

/-- C2: a catalog entry's result appears in the matcher's output iff the
number of its missing ingredients is at most the floor of half its
ingredient count; consequently every returned result satisfies that
bound. -/
theorem C2_half_coverage (pantry : List String) :
    (∀ r ∈ simple_recipe_engine pantry,
      r.missing_ingredients.length ≤ r.ingredients.length / 2) ∧
    (∀ e ∈ catalog,
      (mkResult pantry e ∈ simple_recipe_engine pantry ↔
        (missingOf pantry e).length ≤ e.ingredients.length / 2)) := by
  constructor
  · intro r hr
    obtain ⟨e, _, hstep⟩ := (mem_engine_iff pantry r).mp hr
    unfold engineStep at hstep
    by_cases hc : (missingOf pantry e).length ≤ e.ingredients.length / 2
    · rw [if_pos hc] at hstep
      cases hstep
      exact hc
    · rw [if_neg hc] at hstep
      cases hstep
  · intro e he
    constructor
    · intro hmem
      obtain ⟨e2, _, hstep⟩ := (mem_engine_iff pantry (mkResult pantry e)).mp hmem
      unfold engineStep at hstep
      by_cases hc : (missingOf pantry e2).length ≤ e2.ingredients.length / 2
      · rw [if_pos hc] at hstep
        have hmiss : missingOf pantry e2 = missingOf pantry e :=
          congrArg Recipe.missing_ingredients (Option.some.inj hstep)
        have hing : e2.ingredients = e.ingredients :=
          congrArg Recipe.ingredients (Option.some.inj hstep)
        rw [← hmiss, ← hing]
        exact hc
      · rw [if_neg hc] at hstep
        cases hstep
    · intro hc
      refine (mem_engine_iff pantry (mkResult pantry e)).mpr ⟨e, he, ?_⟩
      unfold engineStep
      rw [if_pos hc]

/-- C2 witness: with the omelette's full pantry, the omelette result (zero
missing out of seven ingredients) is in the output by the iff. -/
theorem C2_half_coverage_witness :
    mkResult p0 veggieOmelette ∈ simple_recipe_engine p0 :=
  ((C2_half_coverage p0).2 veggieOmelette (by decide)).mpr (by decide)

/-- C9: the matcher's output depends on the pantry only through the
membership of its normalized set: two pantries normalizing to the same set
(same entries after lower-casing, trimming, dropping blanks and
duplicates) produce identical output. -/
theorem C9_normalization_invariant (P Q : List String)
    (h : ∀ s, s ∈ pantry_set P ↔ s ∈ pantry_set Q) :
    simple_recipe_engine P = simple_recipe_engine Q := by
  have hc : ∀ x, (pantry_set P).contains x = (pantry_set Q).contains x := by
    intro x
    rw [Bool.eq_iff_iff]
    simp only [List.contains_iff_exists_mem_beq, beq_iff_eq]
    constructor
    · rintro ⟨y, hy, rfl⟩
      exact ⟨x, (h x).mp hy, rfl⟩
    · rintro ⟨y, hy, rfl⟩
      exact ⟨x, (h x).mpr hy, rfl⟩
  have hstep : engineStep P = engineStep Q := by
    funext item
    unfold engineStep mkResult missingOf
    simp only [hc]
  unfold simple_recipe_engine
  rw [hstep]

/-- C9 witness: casing, surrounding whitespace, duplicates and blank
entries in the pantry do not change the output. -/
theorem C9_normalization_invariant_witness :
    simple_recipe_engine ["Eggs ", "", "eggs"] = simple_recipe_engine ["eggs"] :=
  C9_normalization_invariant ["Eggs ", "", "eggs"] ["eggs"] (by
    intro s
    have h1 : pantry_set ["Eggs ", "", "eggs"] = ["eggs", "eggs"] := by decide
    have h2 : pantry_set ["eggs"] = ["eggs"] := by decide
    rw [h1, h2]
    simp)

/-- Two distinct members of a list occur as a two-element sublist in one
order or the other. -/
theorem pair_sublist_of_mem {α : Type} {a b : α} :
    ∀ {l : List α}, a ∈ l → b ∈ l → a ≠ b → List.Sublist [a, b] l ∨ List.Sublist [b, a] l := by
  intro l
  induction l with
  | nil => intro ha; cases ha
  | cons c t ih =>
    intro ha hb hne
    by_cases hac : a = c
    · subst hac
      have hbt : b ∈ t := by
        cases hb with
        | head => exact absurd rfl hne
        | tail _ h => exact h
      exact Or.inl (List.Sublist.cons₂ a (List.singleton_sublist.mpr hbt))
    · by_cases hbc : b = c
      · subst hbc
        have hat : a ∈ t := by
          cases ha with
          | head => exact absurd rfl hac
          | tail _ h => exact h
        exact Or.inr (List.Sublist.cons₂ b (List.singleton_sublist.mpr hat))
      · have hat : a ∈ t := by
          cases ha with
          | head => exact absurd rfl hac
          | tail _ h => exact h
        have hbt : b ∈ t := by
          cases hb with
          | head => exact absurd rfl hbc
          | tail _ h => exact h
        rcases ih hat hbt hne with h | h
        · exact Or.inl (h.cons c)
        · exact Or.inr (h.cons c)

/-- In a duplicate-free list a pair cannot occur as a sublist in both
orders unless its two elements coincide. -/
theorem sublist_pair_antisymm {α : Type} {a b : α} :
    ∀ {l : List α}, l.Pairwise (fun x y => x ≠ y) →
      List.Sublist [a, b] l → List.Sublist [b, a] l → a = b := by
  intro l
  induction l with
  | nil => intro _ h1 h2; simp at h1
  | cons c t ih =>
    intro hnd h1 h2
    cases h1 with
    | cons _ h1t =>
      cases h2 with
      | cons _ h2t => exact ih (List.pairwise_cons.mp hnd).2 h1t h2t
      | cons₂ _ h2t =>
        have hbt : b ∈ t := h1t.subset (by simp)
        exact absurd rfl ((List.pairwise_cons.mp hnd).1 b hbt)
    | cons₂ _ h1t =>
      cases h2 with
      | cons _ h2t =>
        have hat : a ∈ t := h2t.subset (by simp)
        exact absurd rfl ((List.pairwise_cons.mp hnd).1 a hat)
      | cons₂ _ h2t => rfl

/-- A result produced from a catalog entry carries that entry's title, so
its catalog position is the entry's position. -/
theorem catIdx_engineStep (pantry : List String) (e : CatalogEntry) (r : Recipe)
    (h : engineStep pantry e = some r) : catIdx r = tIdx e := by
  unfold engineStep at h
  by_cases hc : (missingOf pantry e).length ≤ e.ingredients.length / 2
  · rw [if_pos hc] at h
    cases h
    rfl
  · rw [if_neg hc] at h
    cases h

/-- The engine's pre-sort result list is in strictly increasing catalog
position (the catalog's titles are pairwise distinct). -/
theorem pre_pairwise_catIdx (pantry : List String) :
    (catalog.filterMap (engineStep pantry)).Pairwise
      (fun r1 r2 => catIdx r1 < catIdx r2) := by
  rw [List.pairwise_filterMap]
  have hcat : catalog.Pairwise (fun e1 e2 => tIdx e1 < tIdx e2) := by decide
  refine hcat.imp ?_
  intro e1 e2 h12 r1 h1 r2 h2
  rw [catIdx_engineStep pantry e1 r1 h1, catIdx_engineStep pantry e2 r2 h2]
  exact h12

/-- C3: the matcher's output is sorted ascending by the pair (number of
missing ingredients, cooking time), and any two results tied on both keys
appear in the catalog's declaration order: every earlier output element is
strictly below every later one in the lexicographic order on (missing
count, cooking time, catalog position), so the order is fully
deterministic. -/
theorem C3_output_order (pantry : List String) :
    (simple_recipe_engine pantry).Pairwise (fun a b =>
      a.missing_ingredients.length < b.missing_ingredients.length ∨
      (a.missing_ingredients.length = b.missing_ingredients.length ∧
        a.cooking_time_minutes < b.cooking_time_minutes) ∨
      (a.missing_ingredients.length = b.missing_ingredients.length ∧
        a.cooking_time_minutes = b.cooking_time_minutes ∧ catIdx a < catIdx b)) := by
  have hpre := pre_pairwise_catIdx pantry
  have hnodupPre : (catalog.filterMap (engineStep pantry)).Pairwise (fun x y => x ≠ y) :=
    hpre.imp (by intro x y h hxy; subst hxy; exact Nat.lt_irrefl _ h)
  have hperm := List.perm_insertionSort keyLe (catalog.filterMap (engineStep pantry))
  have hnodupOut : (simple_recipe_engine pantry).Pairwise (fun x y => x ≠ y) :=
    hperm.nodup_iff.mpr hnodupPre
  have hsorted : (simple_recipe_engine pantry).Pairwise keyLe :=
    List.sorted_insertionSort keyLe (catalog.filterMap (engineStep pantry))
  rw [List.pairwise_iff_forall_sublist]
  intro a b hab
  have hle : keyLe a b := List.pairwise_iff_forall_sublist.mp hsorted hab
  have hne : a ≠ b := List.pairwise_iff_forall_sublist.mp hnodupOut hab
  by_cases hba : keyLe b a
  · have hm : a.missing_ingredients.length = b.missing_ingredients.length := by
      unfold keyLe at hle hba; omega
    have ht : a.cooking_time_minutes = b.cooking_time_minutes := by
      unfold keyLe at hle hba; omega
    have hamem : a ∈ catalog.filterMap (engineStep pantry) :=
      hperm.subset (hab.subset (by simp))
    have hbmem : b ∈ catalog.filterMap (engineStep pantry) :=
      hperm.subset (hab.subset (by simp))
    rcases pair_sublist_of_mem hamem hbmem hne with hsub | hsub
    · exact Or.inr (Or.inr ⟨hm, ht, List.pairwise_iff_forall_sublist.mp hpre hsub⟩)
    · exfalso
      have hout : List.Sublist [b, a] (simple_recipe_engine pantry) :=
        List.pair_sublist_insertionSort hba hsub
      exact hne (sublist_pair_antisymm hnodupOut hab hout)
  · unfold keyLe at hle hba
    omega
